import Mathlib

/-!
Shallow embedding of the `budget_tracing` repository (files
`examples/tracing.py` and `examples/categorization_example.py`).

Modelling conventions:
- Python dicts with heterogeneous scalar values become association lists
  `List (String × Val)` where `Val` covers the scalar kinds the code uses
  (strings, ints, floats modelled as rationals, booleans).
- Python `Optional` arguments become `Option`; the Python idiom `x or d`
  (which replaces both `None` and falsy values such as `""`/`{}` by `d`)
  is modelled by `Option.getD` — for the values the code passes the two
  agree, since `"" or "" = ""` and `{} or {} = {}`.
- The Langfuse backend is modelled by the trace value itself: a trace is a
  record of its creation arguments, its ordered observation list, and its
  optional terminal output.
- The Ollama HTTP round trip is modelled by a `BackendOutcome` input: a
  successful JSON body, or one of the failure shapes
  (`requests` connection error, timeout, non-2xx status, anything else).
- Python exceptions become the `Exc` inductive carried in `Except`;
  `Exc.kind` models `type(e).__name__` and `Exc.message` models `str(e)`.
- Wall-clock readings (`time.time()`) and Python's float rendering are
  external to the logic: elapsed time is an explicit parameter and float
  rendering inside f-strings is modelled by a fixed rendering function.
-/

namespace BudgetTracing

/-- Scalar values appearing in metadata / result dicts of the example. -/
inductive Val where
  | str : String → Val
  | int : Int → Val
  | rat : Rat → Val
  | bool : Bool → Val
deriving Repr, DecidableEq

/-- A Python dict with string keys and scalar values, in insertion order. -/
abbrev ValDict := List (String × Val)

/-- Metadata dicts attached to traces and observations. -/
abbrev Meta := ValDict

/-- A usage dict (`prompt_tokens` / `completion_tokens` counters). -/
abbrev Usage := List (String × Int)

/-- The Langfuse client handle, as built by `get_langfuse_client`. -/
structure Langfuse where
  public_key : String
  secret_key : String
  host : String
deriving Repr, DecidableEq

/-- An observation attached to a trace: a span or a generation
(`trace.span(...)` / `trace.generation(...)` in the Langfuse API). -/
inductive Obs where
  | span (name : String) (input : String) (output : String) (metadata : Meta)
  | generation (name : String) (model : String) (input : String)
      (output : String) (usage : Usage) (metadata : Meta)
deriving Repr, DecidableEq

/-- The name of an observation. -/
def Obs.name : Obs → String
  | .span n _ _ _ => n
  | .generation n _ _ _ _ _ => n

/-- The metadata of an observation. -/
def Obs.metadata : Obs → Meta
  | .span _ _ _ m => m
  | .generation _ _ _ _ _ m => m

/-- A trace: creation arguments, ordered observations, optional terminal
output (the Langfuse trace object as the example uses it). -/
structure Trace where
  name : String
  user_id : Option String
  session_id : Option String
  metadata : Meta
  observations : List Obs
  output : Option ValDict
deriving Repr, DecidableEq

/-- Models Python `str.upper()` (character-wise uppercasing; the project
names used by the repository are ASCII). -/
def strUpper (s : String) : String :=
  ⟨s.data.map Char.toUpper⟩

/-- Models Python `str.strip()`: removes whitespace from both ends. -/
def pyStrip (s : String) : String :=
  ⟨((s.data.dropWhile Char.isWhitespace).reverse.dropWhile Char.isWhitespace).reverse⟩

/-- Embeds `tracing.get_langfuse_client`: reads `{PROJECT}_PUBLIC_KEY` and
`{PROJECT}_SECRET_KEY` from the environment and raises `ValueError`
(modelled as `Except.error` carrying the message) when either is unset or
empty (Python truthiness: `not public_key` also holds for `""`). -/
def get_langfuse_client (env : String → Option String) (project_name : String)
    (langfuse_host : String) : Except String Langfuse :=
  let public_key_var := strUpper project_name ++ "_PUBLIC_KEY"
  let secret_key_var := strUpper project_name ++ "_SECRET_KEY"
  let public_key := (env public_key_var).getD ""
  let secret_key := (env secret_key_var).getD ""
  if public_key = "" ∨ secret_key = "" then
    .error ("Missing Langfuse API keys for project '" ++ project_name ++
      "'. Please set " ++ public_key_var ++ " and " ++ secret_key_var ++
      " in your .env file.")
  else
    .ok { public_key := public_key, secret_key := secret_key, host := langfuse_host }

/-- Embeds `tracing.create_trace`: a fresh trace with `metadata or {}`, no
observations and no output yet. -/
def create_trace (langfuse : Langfuse) (name : String)
    (user_id : Option String) (session_id : Option String)
    (metadata : Option Meta) : Trace :=
  { name := name, user_id := user_id, session_id := session_id,
    metadata := metadata.getD [], observations := [], output := none }

/-- Embeds `tracing.add_generation`: appends one generation observation with
`usage or {}` and `metadata or {}`. -/
def add_generation (trace : Trace) (name : String) (model : String)
    (input_ : String) (output : String) (usage : Option Usage)
    (metadata : Option Meta) : Trace :=
  { trace with observations := trace.observations ++
      [Obs.generation name model input_ output (usage.getD []) (metadata.getD [])] }

/-- Embeds `tracing.add_span`: appends one span observation with `input_ or ""`,
`output or ""` and `metadata or {}`. -/
def add_span (trace : Trace) (name : String) (input_ : Option String)
    (output : Option String) (metadata : Option Meta) : Trace :=
  { trace with observations := trace.observations ++
      [Obs.span name (input_.getD "") (output.getD "") (metadata.getD [])] }

/-- Embeds `trace.update(output=...)`: sets the terminal output field. -/
def Trace.update (trace : Trace) (output : ValDict) : Trace :=
  { trace with output := some output }

/-! ## `examples/categorization_example.py` -/

/-- The `Transaction` dataclass. The Python `amount` is a float; it is
modelled as a rational number. -/
structure Transaction where
  id : String
  description : String
  amount : Rat
  date : String
deriving Repr, DecidableEq

/-- The module-level configuration (`OLLAMA_API_URL`, `OLLAMA_MODEL`),
read from the environment with the module's defaults. -/
structure Config where
  ollama_api_url : String
  ollama_model : String
deriving Repr, DecidableEq

/-- The module's configuration derived from the environment, with the
defaults of `categorization_example.py`. -/
def configFromEnv (env : String → Option String) : Config :=
  { ollama_api_url := (env "OLLAMA_API_URL").getD "http://localhost:11434",
    ollama_model := (env "OLLAMA_MODEL").getD "llama3.1:8b" }

/-- Python exceptions raised by the pipeline. `ValueError` from client
initialization is kept as `Except String` at that layer; these are the
exception types that `categorize_transaction` can see. -/
inductive Exc where
  | connectionError (msg : String)
  | timeoutError (msg : String)
  | runtimeError (msg : String)
deriving Repr, DecidableEq

/-- Models `type(e).__name__` for the modelled exceptions. -/
def Exc.kind : Exc → String
  | .connectionError _ => "ConnectionError"
  | .timeoutError _ => "TimeoutError"
  | .runtimeError _ => "RuntimeError"

/-- Models `str(e)` for the modelled exceptions: the message. -/
def Exc.message : Exc → String
  | .connectionError m => m
  | .timeoutError m => m
  | .runtimeError m => m

/-- The JSON body of a successful Ollama `/api/generate` response, with
the fields the example reads; each may be missing from the JSON. -/
structure OllamaData where
  response : Option String
  prompt_eval_count : Option Int
  eval_count : Option Int
deriving Repr, DecidableEq

/-- Outcome of the HTTP round trip in `_call_ollama`: a parsed 2xx JSON
body, or one of the failure shapes the `except` clauses distinguish
(`requests.exceptions.ConnectionError`, `requests.exceptions.Timeout`,
an HTTP error status from `raise_for_status`, or any other exception,
each carrying the text `str(e)` of the underlying exception). -/
inductive BackendOutcome where
  | ok (data : OllamaData)
  | connectionError (msg : String)
  | timeout
  | httpError (msg : String)
  | otherError (msg : String)
deriving Repr, DecidableEq

/-- Whether the HTTP round trip failed. -/
def BackendOutcome.isFailure : BackendOutcome → Bool
  | .ok _ => false
  | _ => true

/-- The `TransactionCategorizer` object state after `__init__`. -/
structure TransactionCategorizer where
  langfuse : Langfuse
  project_name : String
  session_id : String
deriving Repr, DecidableEq

/-- Embeds `TransactionCategorizer.__init__`: builds the Langfuse client first
(raising `ValueError` when credentials are missing, before any trace
exists) and forms the session id `f"{project_name}_{int(time.time())}"`
(`now` models `int(time.time())`). -/
def TransactionCategorizer.init (env : String → Option String)
    (project_name : String) (now : Int) : Except String TransactionCategorizer :=
  match get_langfuse_client env project_name "http://localhost:3001" with
  | .error e => .error e
  | .ok client =>
      .ok { langfuse := client, project_name := project_name,
            session_id := project_name ++ "_" ++ toString now }

/-- Rounding `num / den` (for `den ≠ 0`) to the nearest integer, ties to
even: models how Python rounds when formatting a float. -/
def roundHalfEvenInt (num : Int) (den : Nat) : Int :=
  let f := Int.fdiv num den
  let r := num - f * den
  if 2 * r < (den : Int) then f
  else if (den : Int) < 2 * r then f + 1
  else if f % 2 = 0 then f else f + 1

/-- Models the f-string conversion `{x:.2f}`: fixed-point rendering of
the rational with two decimal places. -/
def formatFixed2 (q : Rat) : String :=
  let n := roundHalfEvenInt (q.num * 100) q.den
  let sign := if n < 0 then "-" else ""
  let m := n.natAbs
  let cents := m % 100
  sign ++ toString (m / 100) ++ "." ++ (if cents < 10 then "0" else "") ++ toString cents

/-- Models the plain f-string interpolation `{x}` of a Python number; the
exact digit string is irrelevant to every property below, only that it is
a definite function of the value. -/
def numStr (q : Rat) : String := toString q

/-- Embeds `TransactionCategorizer._create_prompt`. -/
def _create_prompt (transaction : Transaction) : String :=
  "Categorize the following financial transaction into ONE of these categories:\n" ++
  "- Food & Dining\n- Transportation\n- Shopping\n- Bills & Utilities\n" ++
  "- Healthcare\n- Entertainment\n- Other\n\n" ++
  "Transaction Description: " ++ transaction.description ++ "\n" ++
  "Amount: $" ++ formatFixed2 transaction.amount ++ "\n\n" ++
  "Respond with ONLY the category name, nothing else."

/-- Embeds `TransactionCategorizer._call_ollama`: on a 2xx response, reads
`response_data.get("response", "").strip()` as the category, logs the
generation with usage counters defaulted to 0 via
`response_data.get(..., 0)`, and returns `(category, 0.95)`; each failure
shape is re-raised as its distinct exception type. Returns the updated
trace alongside the Python return value. -/
def _call_ollama (cfg : Config) (trace : Trace) (prompt : String)
    (outcome : BackendOutcome) : Except Exc (Trace × String × Rat) :=
  match outcome with
  | .ok data =>
      let category := pyStrip (data.response.getD "")
      let confidence : Rat := mkRat 95 100
      let trace := add_generation trace "ollama_categorization" cfg.ollama_model
        prompt category
        (some [("prompt_tokens", data.prompt_eval_count.getD 0),
               ("completion_tokens", data.eval_count.getD 0)])
        (some [("temperature", Val.rat (mkRat 3 10)), ("top_p", Val.rat (mkRat 9 10)),
               ("ollama_host", Val.str cfg.ollama_api_url)])
      .ok (trace, category, confidence)
  | .connectionError m =>
      .error (.connectionError ("Could not connect to Ollama at " ++
        cfg.ollama_api_url ++ ". Make sure Ollama is running and " ++
        cfg.ollama_model ++ " is loaded. Error: " ++ m))
  | .timeout =>
      .error (.timeoutError ("Request to Ollama timed out. The model " ++
        cfg.ollama_model ++ " might be slow."))
  | .httpError m => .error (.runtimeError ("Error calling Ollama: " ++ m))
  | .otherError m => .error (.runtimeError ("Error calling Ollama: " ++ m))

/-- Embeds `TransactionCategorizer.categorize_transaction`: creates the trace,
records the prepare and prompt spans, calls Ollama, then either records
the validate span, sets the trace output to the result dict and returns
it, or — on any exception — records the terminal error span (exception
kind as input, message as output) and re-raises. `elapsed_ms` models the
wall-clock measurement around the Ollama call. Returns the Python
result-or-exception together with this unit's trace. -/
def categorize_transaction (cfg : Config) (c : TransactionCategorizer)
    (outcome : BackendOutcome) (elapsed_ms : Rat) (transaction : Transaction) :
    Except Exc ValDict × Trace :=
  let trace := create_trace c.langfuse "categorize_transaction" (some "system")
    (some c.session_id)
    (some [("transaction_id", Val.str transaction.id),
           ("amount", Val.rat transaction.amount),
           ("date", Val.str transaction.date)])
  let trace := add_span trace "prepare_transaction_data"
    (some ("ID: " ++ transaction.id ++ ", Desc: " ++ transaction.description ++
      ", Amount: " ++ numStr transaction.amount))
    (some "Transaction data prepared") (some [("step", Val.int 1)])
  let prompt := _create_prompt transaction
  let trace := add_span trace "create_prompt" none (some prompt)
    (some [("step", Val.int 2), ("prompt_length", Val.int prompt.length)])
  match _call_ollama cfg trace prompt outcome with
  | .error e =>
      (.error e,
       add_span trace "error" (some e.kind) (some e.message)
         (some [("error", Val.bool true)]))
  | .ok (trace, category, confidence) =>
      let trace := add_span trace "validate_result"
        (some ("Category: " ++ category ++ ", Confidence: " ++ numStr confidence))
        (some "Validation passed") (some [("step", Val.int 4), ("valid", Val.bool true)])
      let result : ValDict :=
        [("transaction_id", Val.str transaction.id),
         ("description", Val.str transaction.description),
         ("amount", Val.rat transaction.amount),
         ("category", Val.str category),
         ("confidence", Val.rat confidence),
         ("processing_time_ms", Val.rat elapsed_ms)]
      (.ok result, trace.update result)

/-- The per-unit error dict appended by `categorize_batch` when a unit's
pipeline raises. -/
def batchErrorDict (transaction : Transaction) (e : Exc) : ValDict :=
  [("transaction_id", Val.str transaction.id),
   ("description", Val.str transaction.description),
   ("amount", Val.rat transaction.amount),
   ("error", Val.str e.message)]

/-- Embeds `TransactionCategorizer.categorize_batch`: iterates the transactions
in order; a successful unit appends its result dict, a failing unit
appends the error dict, and the loop continues either way. `outcomeOf`
and `elapsedOf` give each unit's backend outcome and elapsed time. -/
def categorize_batch (cfg : Config) (c : TransactionCategorizer)
    (outcomeOf : Transaction → BackendOutcome) (elapsedOf : Transaction → Rat) :
    List Transaction → List ValDict
  | [] => []
  | transaction :: rest =>
      (match (categorize_transaction cfg c (outcomeOf transaction)
                (elapsedOf transaction) transaction).1 with
       | .ok result => result
       | .error e => batchErrorDict transaction e) ::
      categorize_batch cfg c outcomeOf elapsedOf rest

/-! ## Auxiliary notions used by the statements -/

/-- The output payload of an observation (both variants carry one). -/
def Obs.output : Obs → String
  | .span _ _ o _ => o
  | .generation _ _ _ o _ _ => o

/-- The input payload of an observation. -/
def Obs.input : Obs → String
  | .span _ i _ _ => i
  | .generation _ _ i _ _ _ => i

/-- Predicate: `sub` occurs as a contiguous substring of `s`. -/
def containsStr (s sub : String) : Prop :=
  ∃ pre post, s = pre ++ sub ++ post

/-- One call to the Observation Recorder (`add_span` or `add_generation`)
with its full argument list. -/
inductive RecorderCall where
  | spanCall (name : String) (input_ : Option String) (output : Option String)
      (metadata : Option Meta)
  | genCall (name : String) (model : String) (input_ : String) (output : String)
      (usage : Option Usage) (metadata : Option Meta)

/-- Performs one recorder call on a trace. -/
def applyCall (t : Trace) : RecorderCall → Trace
  | .spanCall n i o m => add_span t n i o m
  | .genCall n md i o u m => add_generation t n md i o u m

/-- The single observation a recorder call appends. -/
def obsOfCall : RecorderCall → Obs
  | .spanCall n i o m => .span n (i.getD "") (o.getD "") (m.getD [])
  | .genCall n md i o u m => .generation n md i o (u.getD []) (m.getD [])

/-- An observation carrying a failure marking in its metadata, in the
vocabulary the example itself uses (`{"error": True}` on the error span,
`{"valid": ...}` on the validation span). -/
def marksFailure (o : Obs) : Bool :=
  List.lookup "error" o.metadata == some (Val.bool true) ||
  List.lookup "valid" o.metadata == some (Val.bool false)

/-- The two spans `categorize_transaction` records before the Ollama
call (steps 1 and 2 of the pipeline). -/
def preObs (transaction : Transaction) : List Obs :=
  [Obs.span "prepare_transaction_data"
     ("ID: " ++ transaction.id ++ ", Desc: " ++ transaction.description ++
      ", Amount: " ++ numStr transaction.amount)
     "Transaction data prepared" [("step", Val.int 1)],
   Obs.span "create_prompt" "" (_create_prompt transaction)
     [("step", Val.int 2),
      ("prompt_length", Val.int (_create_prompt transaction).length)]]

/-! ## Concrete fixtures for witnesses -/

/-- The module defaults of `categorization_example.py`. -/
def sampleConfig : Config :=
  { ollama_api_url := "http://localhost:11434", ollama_model := "llama3.1:8b" }

/-- A concrete Langfuse client value. -/
def sampleClient : Langfuse :=
  { public_key := "pk", secret_key := "sk", host := "http://localhost:3001" }

/-- A concrete categorizer state. -/
def sampleCategorizer : TransactionCategorizer :=
  { langfuse := sampleClient, project_name := "budget_claude",
    session_id := "budget_claude_1" }

/-- The first sample transaction of `main()`. -/
def sampleTxn : Transaction :=
  { id := "txn_001", description := "Starbucks Coffee", amount := mkRat 11 2,
    date := "2024-01-15" }

/-! ## Claims -/

/-- Strings with equal character data are equal. -/
theorem string_data_eq {s t : String} (h : s.data = t.data) : s = t := by
  cases s
  cases t
  exact congrArg String.mk h

/-- The timeout message contains the words "timed out". -/
theorem timeout_message_split (model : String) :
    "Request to Ollama timed out. The model " ++ model ++ " might be slow."
      = "Request to Ollama " ++ "timed out" ++
        (". The model " ++ model ++ " might be slow.") := by
  apply string_data_eq
  simp only [String.data_append]
  simp [List.append_assoc, List.cons_append, List.nil_append]

/-- C1: on any backend failure inside one unit of work, exactly one
terminal error span is appended to that unit's trace — its input is the
exception kind, its output the exception message — and the very same
exception is re-raised to the caller rather than swallowed. -/
theorem error_span_once_and_reraise (cfg : Config) (c : TransactionCategorizer)
    (outcome : BackendOutcome) (elapsed_ms : Rat) (txn : Transaction)
    (h : outcome.isFailure = true) :
    ∃ e : Exc,
      (∀ t prompt, _call_ollama cfg t prompt outcome = .error e) ∧
      (categorize_transaction cfg c outcome elapsed_ms txn).1 = .error e ∧
      ∃ pre,
        (categorize_transaction cfg c outcome elapsed_ms txn).2.observations
          = pre ++ [Obs.span "error" e.kind e.message [("error", Val.bool true)]] ∧
        ∀ o ∈ pre, o.name ≠ "error" := by
  have hpre : ∀ o ∈ preObs txn, o.name ≠ "error" := by
    intro o ho
    simp only [preObs, List.mem_cons, List.not_mem_nil, or_false] at ho
    rcases ho with rfl | rfl <;> simp [Obs.name]
  cases outcome with
  | ok data => simp [BackendOutcome.isFailure] at h
  | connectionError m =>
      exact ⟨Exc.connectionError ("Could not connect to Ollama at " ++
          cfg.ollama_api_url ++ ". Make sure Ollama is running and " ++
          cfg.ollama_model ++ " is loaded. Error: " ++ m),
        fun t prompt => rfl, rfl, preObs txn, rfl, hpre⟩
  | timeout =>
      exact ⟨Exc.timeoutError ("Request to Ollama timed out. The model " ++
          cfg.ollama_model ++ " might be slow."),
        fun t prompt => rfl, rfl, preObs txn, rfl, hpre⟩
  | httpError m =>
      exact ⟨Exc.runtimeError ("Error calling Ollama: " ++ m),
        fun t prompt => rfl, rfl, preObs txn, rfl, hpre⟩
  | otherError m =>
      exact ⟨Exc.runtimeError ("Error calling Ollama: " ++ m),
        fun t prompt => rfl, rfl, preObs txn, rfl, hpre⟩

/-- Witness for C1: a concrete timed-out unit records exactly one error
span (kind as input, message as output) and re-raises the exception. -/
theorem error_span_once_and_reraise_witness :
    BackendOutcome.timeout.isFailure = true ∧
    (∃ e : Exc,
      (∀ t prompt, _call_ollama sampleConfig t prompt .timeout = .error e) ∧
      (categorize_transaction sampleConfig sampleCategorizer .timeout 7 sampleTxn).1
        = .error e ∧
      ∃ pre,
        (categorize_transaction sampleConfig sampleCategorizer .timeout 7
            sampleTxn).2.observations
          = pre ++ [Obs.span "error" e.kind e.message [("error", Val.bool true)]] ∧
        ∀ o ∈ pre, o.name ≠ "error") :=
  ⟨rfl, error_span_once_and_reraise sampleConfig sampleCategorizer .timeout 7
    sampleTxn rfl⟩

/-- C5: `_call_ollama` surfaces every backend failure under exactly one
of three distinct kinds — connection refused (`ConnectionError`), timeout
(`TimeoutError`, message containing "timed out"), and a generic other
kind (`RuntimeError`) — and under no other kind, so callers can
distinguish the three cases. -/
theorem ollama_failure_kinds (cfg : Config) (t : Trace) (prompt : String)
    (outcome : BackendOutcome) (h : outcome.isFailure = true) :
    ∃ e : Exc, _call_ollama cfg t prompt outcome = .error e ∧
      (e.kind = "ConnectionError" ∨ e.kind = "TimeoutError" ∨ e.kind = "RuntimeError") ∧
      ((∃ m, outcome = .connectionError m) ↔ e.kind = "ConnectionError") ∧
      (outcome = .timeout ↔ e.kind = "TimeoutError") ∧
      (outcome = .timeout → containsStr e.message "timed out") := by
  cases outcome with
  | ok data => simp [BackendOutcome.isFailure] at h
  | connectionError m =>
      refine ⟨_, rfl, Or.inl rfl, ⟨fun _ => rfl, fun _ => ⟨m, rfl⟩⟩,
        ⟨fun hc => by simp at hc, fun hc => by simp [Exc.kind] at hc⟩,
        fun hc => by simp at hc⟩
  | timeout =>
      refine ⟨_, rfl, Or.inr (Or.inl rfl), ⟨fun hc => ?_, fun hc => by simp [Exc.kind] at hc⟩,
        ⟨fun _ => rfl, fun _ => rfl⟩, fun _ => ?_⟩
      · obtain ⟨m, hm⟩ := hc
        simp at hm
      · exact ⟨"Request to Ollama ",
          ". The model " ++ cfg.ollama_model ++ " might be slow.",
          timeout_message_split cfg.ollama_model⟩
  | httpError m =>
      refine ⟨_, rfl, Or.inr (Or.inr rfl), ⟨fun hc => ?_, fun hc => by simp [Exc.kind] at hc⟩,
        ⟨fun hc => by simp at hc, fun hc => by simp [Exc.kind] at hc⟩,
        fun hc => by simp at hc⟩
      obtain ⟨m2, hm⟩ := hc
      simp at hm
  | otherError m =>
      refine ⟨_, rfl, Or.inr (Or.inr rfl), ⟨fun hc => ?_, fun hc => by simp [Exc.kind] at hc⟩,
        ⟨fun hc => by simp at hc, fun hc => by simp [Exc.kind] at hc⟩,
        fun hc => by simp at hc⟩
      obtain ⟨m2, hm⟩ := hc
      simp at hm

/-- Witness for C5: the concrete timeout failure is surfaced as a
`TimeoutError` whose message contains "timed out". -/
theorem ollama_failure_kinds_witness :
    BackendOutcome.timeout.isFailure = true ∧
    (∃ e : Exc,
      _call_ollama sampleConfig
          (create_trace sampleClient "categorize_transaction" none none none)
          "p" .timeout = .error e ∧
      (e.kind = "ConnectionError" ∨ e.kind = "TimeoutError" ∨ e.kind = "RuntimeError") ∧
      ((∃ m, BackendOutcome.timeout = BackendOutcome.connectionError m) ↔
        e.kind = "ConnectionError") ∧
      (BackendOutcome.timeout = BackendOutcome.timeout ↔ e.kind = "TimeoutError") ∧
      (BackendOutcome.timeout = BackendOutcome.timeout → containsStr e.message "timed out")) :=
  ⟨rfl, ollama_failure_kinds sampleConfig
    (create_trace sampleClient "categorize_transaction" none none none) "p" .timeout rfl⟩

/-- C2: In the concrete success scenario — a client obtained with
credentials present for project "P", a trace "unit" with session
"P_123", then a span ("prepare", output "ready"), then a generation
("infer", model "m", input "x", output "y", usage {prompt_tokens: 5,
completion_tokens: 1}), then closing with output {"result": "y"} — the
trace holds exactly 2 observations, the span before the generation, and
its terminal output equals {"result": "y"}. -/
theorem scenario_two_observations_output :
    get_langfuse_client
      (fun k => if k = "P_PUBLIC_KEY" then some "pk"
                else if k = "P_SECRET_KEY" then some "sk" else none)
      "P" "http://localhost:3001" = .ok sampleClient ∧
    (let t0 := create_trace sampleClient "unit" none (some "P_123") none
     let t1 := add_span t0 "prepare" none (some "ready") none
     let t2 := add_generation t1 "infer" "m" "x" "y"
       (some [("prompt_tokens", 5), ("completion_tokens", 1)]) none
     let t3 := t2.update [("result", Val.str "y")]
     t3.observations.length = 2 ∧
     t3.observations = [Obs.span "prepare" "" "ready" [],
       Obs.generation "infer" "m" "x" "y"
         [("prompt_tokens", 5), ("completion_tokens", 1)] []] ∧
     t3.output = some [("result", Val.str "y")]) :=
  ⟨by rfl, rfl, rfl, rfl⟩

/-- C4: each `add_span` / `add_generation` call appends exactly one
observation at the end of the trace's sequence, and consequently any
sequence of recorder calls by a single caller leaves exactly the
corresponding observations in call order. -/
theorem recorded_order_equals_call_order :
    (∀ t call, (applyCall t call).observations
        = t.observations ++ [obsOfCall call]) ∧
    (∀ t calls, (List.foldl applyCall t calls).observations
        = t.observations ++ calls.map obsOfCall) := by
  have h1 : ∀ t call, (applyCall t call).observations
      = t.observations ++ [obsOfCall call] := by
    intro t call
    cases call <;> rfl
  refine ⟨h1, ?_⟩
  intro t calls
  induction calls generalizing t with
  | nil => simp
  | cons c cs ih => simp [List.foldl_cons, ih, h1]

/-- C10: calling the recorder twice with identical arguments appends two
observations — identical in content but at two distinct positions — so
recording is append-only, never upsert, with no deduplication. -/
theorem identical_calls_append_two_observations
    (t : Trace) (n : String) (i o : Option String) (m : Option Meta)
    (g md inp outp : String) (u : Option Usage) (gm : Option Meta) :
    ((add_span (add_span t n i o m) n i o m).observations
        = t.observations ++ [Obs.span n (i.getD "") (o.getD "") (m.getD []),
                             Obs.span n (i.getD "") (o.getD "") (m.getD [])]) ∧
    (add_span (add_span t n i o m) n i o m).observations.length
        = t.observations.length + 2 ∧
    ((add_generation (add_generation t g md inp outp u gm)
        g md inp outp u gm).observations
        = t.observations
          ++ [Obs.generation g md inp outp (u.getD []) (gm.getD []),
              Obs.generation g md inp outp (u.getD []) (gm.getD [])]) ∧
    (add_generation (add_generation t g md inp outp u gm)
        g md inp outp u gm).observations.length
        = t.observations.length + 2 := by
  refine ⟨?_, ?_, ?_, ?_⟩ <;> simp [add_span, add_generation]

/-- C3: a trace's terminal output is assigned at most once — creation
leaves it unset, recording observations never touches it, a successful
unit sets it exactly once (to the returned result) and a failing unit
leaves it unset. -/
theorem trace_output_assigned_once :
    (∀ lf n u s m, (create_trace lf n u s m).output = none) ∧
    (∀ t n i o m, (add_span t n i o m).output = t.output) ∧
    (∀ t n md i o u m, (add_generation t n md i o u m).output = t.output) ∧
    (∀ cfg c outcome el txn r,
        (categorize_transaction cfg c outcome el txn).1 = .ok r →
        (categorize_transaction cfg c outcome el txn).2.output = some r) ∧
    (∀ cfg c outcome el txn e,
        (categorize_transaction cfg c outcome el txn).1 = .error e →
        (categorize_transaction cfg c outcome el txn).2.output = none) := by
  refine ⟨fun _ _ _ _ _ => rfl, fun _ _ _ _ _ => rfl, fun _ _ _ _ _ _ _ => rfl, ?_, ?_⟩
  · intro cfg c outcome el txn r h
    cases outcome with
    | ok data =>
        simp only [categorize_transaction, _call_ollama, Except.ok.injEq] at h ⊢
        simp [Trace.update, h]
    | connectionError m => simp [categorize_transaction, _call_ollama] at h
    | timeout => simp [categorize_transaction, _call_ollama] at h
    | httpError m => simp [categorize_transaction, _call_ollama] at h
    | otherError m => simp [categorize_transaction, _call_ollama] at h
  · intro cfg c outcome el txn e h
    cases outcome with
    | ok data => simp [categorize_transaction, _call_ollama] at h
    | connectionError m => rfl
    | timeout => rfl
    | httpError m => rfl
    | otherError m => rfl

/-- Witness for C3: a concrete successful unit sets the output to its
result dict, and a concrete failing unit leaves the output unset. -/
theorem trace_output_assigned_once_witness :
    (categorize_transaction sampleConfig sampleCategorizer
        (.ok ⟨some "Food & Dining", some 25, some 3⟩) 7 sampleTxn).2.output
      = some [("transaction_id", Val.str "txn_001"),
              ("description", Val.str "Starbucks Coffee"),
              ("amount", Val.rat (mkRat 11 2)),
              ("category", Val.str "Food & Dining"),
              ("confidence", Val.rat (mkRat 95 100)),
              ("processing_time_ms", Val.rat 7)] ∧
    (categorize_transaction sampleConfig sampleCategorizer
        .timeout 7 sampleTxn).2.output = none :=
  ⟨trace_output_assigned_once.2.2.2.1 sampleConfig sampleCategorizer
      (.ok ⟨some "Food & Dining", some 25, some 3⟩) 7 sampleTxn _ (by rfl),
   trace_output_assigned_once.2.2.2.2 sampleConfig sampleCategorizer
      .timeout 7 sampleTxn
      (.timeoutError "Request to Ollama timed out. The model llama3.1:8b might be slow.")
      (by rfl)⟩

/-- Counterexample to C6 as stated: an environment in which both
credential variables are present but hold the empty string still makes
initialization fail — presence of the two credentials does not preclude
the configuration error, because Python truthiness treats `""` like an
unset variable. -/
theorem credentials_present_but_init_fails :
    (((fun _ => some "") : String → Option String) "BUDGET_CLAUDE_PUBLIC_KEY").isSome
      = true ∧
    (((fun _ => some "") : String → Option String) "BUDGET_CLAUDE_SECRET_KEY").isSome
      = true ∧
    ∃ msg,
      get_langfuse_client (fun _ => some "") "budget_claude" "http://localhost:3001"
        = .error msg ∧
      TransactionCategorizer.init (fun _ => some "") "budget_claude" 0 = .error msg :=
  ⟨rfl, rfl,
   "Missing Langfuse API keys for project 'budget_claude'. Please set BUDGET_CLAUDE_PUBLIC_KEY and BUDGET_CLAUDE_SECRET_KEY in your .env file.",
   by rfl, by rfl⟩

/-- C6 (amended): client initialization fails with the configuration
error exactly when either credential is absent or empty; when both are
present and non-empty it returns a client without this error. A failing
initialization yields no categorizer, so no trace is ever opened for the
unit; a succeeding one carries exactly the built client. -/
theorem credentials_error_characterization (env : String → Option String)
    (p hst : String) (now : Int) :
    ((∃ msg, get_langfuse_client env p hst = .error msg) ↔
      ((env (strUpper p ++ "_PUBLIC_KEY")).getD "" = "" ∨
       (env (strUpper p ++ "_SECRET_KEY")).getD "" = "")) ∧
    (∀ client, TransactionCategorizer.init env p now = .ok client →
       get_langfuse_client env p "http://localhost:3001" = .ok client.langfuse) ∧
    (∀ msg, get_langfuse_client env p "http://localhost:3001" = .error msg →
       TransactionCategorizer.init env p now = .error msg) := by
  by_cases hcond : ((env (strUpper p ++ "_PUBLIC_KEY")).getD "" = "" ∨
      (env (strUpper p ++ "_SECRET_KEY")).getD "" = "")
  · have hg : ∀ h2, get_langfuse_client env p h2
        = .error ("Missing Langfuse API keys for project '" ++ p ++
          "'. Please set " ++ (strUpper p ++ "_PUBLIC_KEY") ++ " and " ++
          (strUpper p ++ "_SECRET_KEY") ++ " in your .env file.") := by
      intro h2
      simp [get_langfuse_client, if_pos hcond]
    refine ⟨⟨fun _ => hcond, fun _ => ⟨_, hg hst⟩⟩, ?_, ?_⟩
    · intro client hcl
      simp [TransactionCategorizer.init, hg "http://localhost:3001"] at hcl
    · intro msg hmsg
      rw [hg "http://localhost:3001"] at hmsg
      simp only [Except.error.injEq] at hmsg
      simp [TransactionCategorizer.init, hg "http://localhost:3001", hmsg]
  · have hg : ∀ h2, get_langfuse_client env p h2
        = .ok { public_key := (env (strUpper p ++ "_PUBLIC_KEY")).getD "",
                secret_key := (env (strUpper p ++ "_SECRET_KEY")).getD "",
                host := h2 } := by
      intro h2
      simp [get_langfuse_client, if_neg hcond]
    refine ⟨⟨?_, fun hor => absurd hor hcond⟩, ?_, ?_⟩
    · rintro ⟨msg, hmsg⟩
      rw [hg hst] at hmsg
      exact absurd hmsg (by simp)
    · intro client hcl
      simp [TransactionCategorizer.init, hg "http://localhost:3001"] at hcl
      rw [hg "http://localhost:3001", ← hcl]
    · intro msg hmsg
      rw [hg "http://localhost:3001"] at hmsg
      exact absurd hmsg (by simp)

/-- Witness for C6 (amended): with both credentials entirely absent,
initialization fails with the configuration error before any trace
exists. -/
theorem credentials_error_characterization_witness :
    TransactionCategorizer.init (fun _ => none) "budget_claude" 0
      = .error "Missing Langfuse API keys for project 'budget_claude'. Please set BUDGET_CLAUDE_PUBLIC_KEY and BUDGET_CLAUDE_SECRET_KEY in your .env file." :=
  (credentials_error_characterization (fun _ => none) "budget_claude"
    "http://localhost:3001" 0).2.2 _ (by rfl)

/-- Counterexample to C7 as stated: when no usage dict is supplied to the
recorder (`add_generation` with `usage=None`), the recorded usage is the
empty mapping — `prompt_tokens` and `completion_tokens` are absent, not
zero. -/
theorem usage_absent_when_not_supplied :
    (add_generation (create_trace sampleClient "t" none none none)
        "g" "m" "i" "o" none none).observations
      = [Obs.generation "g" "m" "i" "o" [] []] ∧
    List.lookup "prompt_tokens" ([] : Usage) ≠ some 0 ∧
    List.lookup "completion_tokens" ([] : Usage) ≠ some 0 :=
  ⟨rfl, by simp, by simp⟩

/-- C7 (amended): usage counters the backend omits are recorded as zero
(`response_data.get(..., 0)` in `_call_ollama`); but when no usage dict
is supplied to `add_generation`, the usage is recorded as the empty
mapping, with both counter fields absent rather than zero. -/
theorem usage_zero_default_from_backend (cfg : Config) (t : Trace)
    (prompt : String) (data : OllamaData)
    (h1 : data.prompt_eval_count = none) (h2 : data.eval_count = none) :
    (∃ tr cat conf, _call_ollama cfg t prompt (.ok data) = .ok (tr, cat, conf) ∧
      tr.observations = t.observations ++
        [Obs.generation "ollama_categorization" cfg.ollama_model prompt cat
          [("prompt_tokens", 0), ("completion_tokens", 0)]
          [("temperature", Val.rat (mkRat 3 10)), ("top_p", Val.rat (mkRat 9 10)),
           ("ollama_host", Val.str cfg.ollama_api_url)]] ∧
      List.lookup "prompt_tokens"
        [("prompt_tokens", (0 : Int)), ("completion_tokens", 0)] = some 0 ∧
      List.lookup "completion_tokens"
        [("prompt_tokens", (0 : Int)), ("completion_tokens", 0)] = some 0) ∧
    (∀ t2 n md i o meta, (add_generation t2 n md i o none meta).observations
        = t2.observations ++ [Obs.generation n md i o [] (meta.getD [])]) := by
  obtain ⟨resp, pec, ec⟩ := data
  cases h1
  cases h2
  exact ⟨⟨_, _, _, rfl, rfl, rfl, rfl⟩, fun t2 n md i o meta => rfl⟩

/-- Witness for C7 (amended): a backend body with both counters missing
is recorded with zero counters. -/
theorem usage_zero_default_from_backend_witness :
    (OllamaData.mk (some "Food") none none).prompt_eval_count = none ∧
    (OllamaData.mk (some "Food") none none).eval_count = none ∧
    ((∃ tr cat conf,
      _call_ollama sampleConfig
          (create_trace sampleClient "t" none none none) "p"
          (.ok (OllamaData.mk (some "Food") none none)) = .ok (tr, cat, conf) ∧
      tr.observations
        = (create_trace sampleClient "t" none none none).observations ++
          [Obs.generation "ollama_categorization" sampleConfig.ollama_model "p" cat
            [("prompt_tokens", 0), ("completion_tokens", 0)]
            [("temperature", Val.rat (mkRat 3 10)), ("top_p", Val.rat (mkRat 9 10)),
             ("ollama_host", Val.str sampleConfig.ollama_api_url)]] ∧
      List.lookup "prompt_tokens"
        [("prompt_tokens", (0 : Int)), ("completion_tokens", 0)] = some 0 ∧
      List.lookup "completion_tokens"
        [("prompt_tokens", (0 : Int)), ("completion_tokens", 0)] = some 0) ∧
    (∀ t2 n md i o meta, (add_generation t2 n md i o none meta).observations
        = t2.observations ++ [Obs.generation n md i o [] (meta.getD [])])) :=
  ⟨rfl, rfl,
   usage_zero_default_from_backend sampleConfig
     (create_trace sampleClient "t" none none none) "p"
     (OllamaData.mk (some "Food") none none) rfl rfl⟩

/-- Counterexample to C8 as stated: a concrete unit whose produced
category is empty (the spec's example of a failed sanity check) records
no failure on its trace at all — every observation is free of failure
markings, the validate_result span unconditionally reports "Validation
passed", and the unit returns the empty category as a success. -/
theorem empty_category_no_failure_recorded :
    ((categorize_transaction sampleConfig sampleCategorizer
        (.ok ⟨some "", none, none⟩) 7 sampleTxn).1
      = .ok [("transaction_id", Val.str "txn_001"),
             ("description", Val.str "Starbucks Coffee"),
             ("amount", Val.rat (mkRat 11 2)),
             ("category", Val.str ""),
             ("confidence", Val.rat (mkRat 95 100)),
             ("processing_time_ms", Val.rat 7)]) ∧
    (∀ o ∈ (categorize_transaction sampleConfig sampleCategorizer
        (.ok ⟨some "", none, none⟩) 7 sampleTxn).2.observations,
      marksFailure o = false) ∧
    (((categorize_transaction sampleConfig sampleCategorizer
        (.ok ⟨some "", none, none⟩) 7 sampleTxn).2.observations.map
        (fun o => (o.name, Obs.output o))).getLast?
      = some ("validate_result", "Validation passed")) := by
  refine ⟨by rfl, ?_, by rfl⟩
  decide

/-- C8 (amended): a unit whose produced category is empty still completes
successfully — the sanity check is never raised — but the failure is not
recorded either: the validate_result span is appended with output
"Validation passed" and no observation carries a failure marking. -/
theorem empty_category_nonfatal (cfg : Config) (c : TransactionCategorizer)
    (elapsed_ms : Rat) (txn : Transaction) (data : OllamaData)
    (h : pyStrip (data.response.getD "") = "") :
    ∃ r, (categorize_transaction cfg c (.ok data) elapsed_ms txn).1 = .ok r ∧
      List.lookup "category" r = some (Val.str "") ∧
      (((categorize_transaction cfg c (.ok data) elapsed_ms txn).2.observations.map
          (fun o => (o.name, Obs.output o))).getLast?
        = some ("validate_result", "Validation passed")) ∧
      (∀ o ∈ (categorize_transaction cfg c (.ok data) elapsed_ms txn).2.observations,
        marksFailure o = false) := by
  refine ⟨_, rfl, ?_, by rfl, ?_⟩
  · have hl : List.lookup "category"
        [("transaction_id", Val.str txn.id),
         ("description", Val.str txn.description),
         ("amount", Val.rat txn.amount),
         ("category", Val.str (pyStrip (data.response.getD ""))),
         ("confidence", Val.rat (mkRat 95 100)),
         ("processing_time_ms", Val.rat elapsed_ms)]
        = some (Val.str (pyStrip (data.response.getD ""))) := rfl
    rw [hl, h]
  · intro o ho
    simp only [categorize_transaction, _call_ollama, create_trace, add_span,
      add_generation, Trace.update, List.nil_append, List.append_assoc,
      List.cons_append, List.mem_cons, List.not_mem_nil, or_false] at ho
    rcases ho with rfl | rfl | rfl | rfl <;> rfl

/-- Witness for C8 (amended): a concrete backend body whose response
field is missing yields the empty category, a successful unit, and no
recorded failure. -/
theorem empty_category_nonfatal_witness :
    pyStrip ((OllamaData.mk none none none).response.getD "") = "" ∧
    (∃ r, (categorize_transaction sampleConfig sampleCategorizer
        (.ok (OllamaData.mk none none none)) 7 sampleTxn).1 = .ok r ∧
      List.lookup "category" r = some (Val.str "") ∧
      (((categorize_transaction sampleConfig sampleCategorizer
          (.ok (OllamaData.mk none none none)) 7 sampleTxn).2.observations.map
          (fun o => (o.name, Obs.output o))).getLast?
        = some ("validate_result", "Validation passed")) ∧
      (∀ o ∈ (categorize_transaction sampleConfig sampleCategorizer
          (.ok (OllamaData.mk none none none)) 7 sampleTxn).2.observations,
        marksFailure o = false)) :=
  ⟨rfl, empty_category_nonfatal sampleConfig sampleCategorizer 7 sampleTxn
    (OllamaData.mk none none none) rfl⟩

/-- C9: batch processing yields exactly one result per transaction, in
input order; a successful unit contributes its result dict, a failing
unit contributes the error dict carrying its transaction id, description,
amount and an error field with the exception message, and processing
continues with the remaining units either way. -/
theorem batch_one_result_per_transaction (cfg : Config)
    (c : TransactionCategorizer) (outcomeOf : Transaction → BackendOutcome)
    (elapsedOf : Transaction → Rat) (transactions : List Transaction) :
    (categorize_batch cfg c outcomeOf elapsedOf transactions).length
      = transactions.length ∧
    categorize_batch cfg c outcomeOf elapsedOf transactions
      = transactions.map (fun txn =>
          match (categorize_transaction cfg c (outcomeOf txn) (elapsedOf txn) txn).1 with
          | .ok result => result
          | .error e => batchErrorDict txn e) ∧
    (∀ txn e, List.lookup "error" (batchErrorDict txn e) = some (Val.str e.message) ∧
       List.lookup "transaction_id" (batchErrorDict txn e) = some (Val.str txn.id) ∧
       List.lookup "description" (batchErrorDict txn e)
         = some (Val.str txn.description) ∧
       List.lookup "amount" (batchErrorDict txn e) = some (Val.rat txn.amount)) := by
  have hmap : categorize_batch cfg c outcomeOf elapsedOf transactions
      = transactions.map (fun txn =>
          match (categorize_transaction cfg c (outcomeOf txn) (elapsedOf txn) txn).1 with
          | .ok result => result
          | .error e => batchErrorDict txn e) := by
    induction transactions with
    | nil => rfl
    | cons t ts ih => simp [categorize_batch, ih]
  refine ⟨?_, hmap, fun txn e => ⟨rfl, rfl, rfl, rfl⟩⟩
  rw [hmap, List.length_map]

end BudgetTracing
